import Mathlib

/-!
Shallow embedding of `src/dev.py`, a test dispatcher that builds token
lists for six fixed scenarios and launches an external plotting program
with them.

Modelling conventions:
* Python floats are modelled as exact rationals (`ℚ`); `math.sin` and the
  decimal rendering `str` of a float are abstracted as parameters
  `fsin : ℚ → ℚ` and `frender : ℚ → String`, since the structural claims
  under study do not depend on their values.
* Python integers are `ℤ`, and `str` of an integer is `toString`, the
  decimal rendering.
* Python `s.split(" ")` (split on every single space, keeping empty
  fields, with the empty string mapping to a one-element list holding the
  empty string) is embedded as the structurally recursive `pySplit`.
* Python `s.strip()` (strip ASCII whitespace from both ends) is embedded
  as `pyStrip`.
* The child-process wait loop is embedded as a function over an explicit
  list of observed events (`LoopEvent`).
-/

/-- Core of Python's `s.split(sep)` for a one-character separator: cut
the character list at every occurrence of the separator, keeping empty
fields; the empty input yields one empty field. -/
def splitOnChar (sep : Char) : List Char → List (List Char)
  | [] => [[]]
  | c :: rest =>
    match splitOnChar sep rest with
    | [] => if c = sep then [[], []] else [[c]]
    | h :: tl => if c = sep then [] :: h :: tl else (c :: h) :: tl

/-- Embedding of Python's `s.split(" ")`: split on every single space
character, keeping empty fields. -/
def pySplit (s : String) : List String :=
  (splitOnChar ' ' s.data).map String.mk

/-- The type of a scenario generator: it receives the sine model, the
float-rendering model and the list of extra aes tokens, and returns the
token list for the child process. -/
def Gen : Type := (ℚ → ℚ) → (ℚ → String) → List String → List String

/-- Embedding of `to_str` from `dev.py` applied to a float list:
`", ".join(map(str, x))` with `str` on floats abstracted as `frender`. -/
def to_str (frender : ℚ → String) (xs : List ℚ) : String :=
  String.intercalate (", ") (xs.map frender)

/-- Embedding of `to_str` from `dev.py` applied to an integer list:
`", ".join(map(str, x))`, where `str` of an integer is its decimal
rendering `toString`. -/
def to_strInt (xs : List ℤ) : String :=
  String.intercalate (", ") (xs.map toString)

/-- The list `x = [i/10 for i in range(0, 100)]` from `test1`. -/
def x1 : List ℚ := List.map (fun i : ℕ => (i : ℚ) / 10) (List.range 100)

/-- The list `y = [math.sin(i) for i in x]` from `test1`. -/
def y1 (fsin : ℚ → ℚ) : List ℚ := x1.map fsin

/-- Embedding of `test1`: sine of 100 linearly spaced points. -/
def test1 : Gen := fun fsin frender aes =>
  ["-x", to_str frender x1, "-y", to_str frender (y1 fsin)] ++ aes

/-- The list `x = [i for i in range(5)]` from `test2`. -/
def x2 : List ℤ := List.map (fun i : ℕ => (i : ℤ)) (List.range 5)

/-- The list `y = [i for i in range(8)]` from `test2`, as it stands
before the duplication. -/
def y2pre : List ℤ := List.map (fun i : ℕ => (i : ℤ)) (List.range 8)

/-- The `y` list of `test2` after `y.extend(y)`: the 8-element list
concatenated with itself. -/
def y2 : List ℤ := y2pre ++ y2pre

/-- Embedding of `test2`: two integer series, the second duplicated in
place. -/
def test2 : Gen := fun _ _ aes =>
  ["-x", to_strInt x2, "-y", to_strInt y2] ++ aes

/-- The list `x = [i/5 for i in range(0, 5)]` from `test3`. -/
def x3 : List ℚ := List.map (fun i : ℕ => (i : ℚ) / 5) (List.range 5)

/-- The list `y = [math.sin(i) for i in x]` from `test3`. -/
def y3 (fsin : ℚ → ℚ) : List ℚ := x3.map fsin

/-- Embedding of `test3`: sine of 5 linearly spaced points. -/
def test3 : Gen := fun fsin frender aes =>
  ["-x", to_str frender x3, "-y", to_str frender (y3 fsin)] ++ aes

/-- Embedding of `test4`: the fixed literal argument string of two inline
series, concatenated with a single space between them and split on single
spaces; `aes` is ignored by the source. -/
def test4 : Gen := fun _ _ _ =>
  pySplit
    (("-P -x \"1,2,3\" -y \"1,4,9\" -t lines -c red" ++ " ")
      ++ "-P -x \"1,2,3\" -y \"2,3,4\" -t points -c blue")

/-- Embedding of `test5`: file-backed group then inline group, split on
single spaces; `aes` is ignored by the source. -/
def test5 : Gen := fun _ _ _ =>
  pySplit
    (("-P --file test.dat -x1 -y2 -t lines -c red" ++ " ")
      ++ "-P -x \"1,2,3,4\" -y \"3,6,9,12\" -t points -c blue")

/-- Embedding of `test6`: inline group then file-backed group, split on
single spaces; `aes` is ignored by the source. -/
def test6 : Gen := fun _ _ _ =>
  pySplit
    (("-P -x \"1,2,3,4\" -y \"3,6,9,12\" -t points -c blue" ++ " ")
      ++ "-P --file test.dat -x1 -y2 -t lines -c red")

/-- Embedding of the dict `test_cases = {1: test1, ..., 6: test6}` as a
lookup by integer identifier. -/
def test_cases (t : ℤ) : Option Gen :=
  if t = 1 then some test1
  else if t = 2 then some test2
  else if t = 3 then some test3
  else if t = 4 then some test4
  else if t = 5 then some test5
  else if t = 6 then some test6
  else none

/-- True for the characters stripped by Python's `str.strip()` (ASCII
whitespace). -/
def isPyWhitespace (c : Char) : Bool :=
  c = ' ' || c = '\t' || c = '\n' || c = '\x0d' || c = '\x0b' || c = '\x0c'

/-- Embedding of Python's `s.strip()`: remove leading and trailing
whitespace characters. -/
def pyStrip (s : String) : String :=
  String.mk (((s.data.dropWhile isPyWhitespace).reverse.dropWhile
    isPyWhitespace).reverse)

/-- Embedding of `aes = args.aes; aes = aes.strip().split(" ")` from the
`__main__` block: strip, then split on every single space keeping empty
fields (so the empty string yields a single empty token). -/
def aesTokens (s : String) : List String :=
  pySplit (pyStrip s)

/-- Outcome of the `__main__` block up to the launch of the child
process: either an error report plus a process exit with the given
status (no child launched), or a launch of the child with the given
argument vector. -/
inductive MainOutcome where
  | errorExit (msg : String) (code : ℕ)
  | launched (argv : List String)
deriving DecidableEq, Repr

/-- Embedding of the `__main__` block of `dev.py`: look the scenario
identifier up in `test_cases`; if absent, print the not-found message and
exit with status 1; otherwise split the aes string into tokens, run the
generator, and launch `./main` with the resulting tokens appended. -/
def pymain (fsin : ℚ → ℚ) (frender : ℚ → String) (t : ℤ) (aesStr : String) :
    MainOutcome :=
  match test_cases t with
  | none => MainOutcome.errorExit ("Test " ++ toString t ++ " not found") 1
  | some g => MainOutcome.launched ("./main" :: g fsin frender (aesTokens aesStr))

/-- One observed event of the wait loop: `running` means `proc.poll()`
returned `None` and the subsequent sleep completed without interrupt;
`exited` means `proc.poll()` returned an exit status; `interrupt` means a
`KeyboardInterrupt` was delivered at this point. -/
inductive LoopEvent where
  | running
  | exited
  | interrupt
deriving DecidableEq, Repr

/-- How the dispatcher's wait phase ended. Both constructors are normal
returns of the dispatcher (the interrupt handler swallows the
exception): `childExited` when the poll saw the child exit, `terminated`
when an interrupt caused a termination request. -/
inductive WaitResult where
  | childExited
  | terminated
deriving DecidableEq, Repr

/-- Embedding of the wait loop of `dev.py`
(`try: while proc.poll() is None: time.sleep(0.1)` with
`except KeyboardInterrupt: proc.terminate()`): consume the observed
events; return the way the wait ended together with the number of
termination requests issued to the child. An exhausted event list means
the child was never seen to exit and no interrupt arrived; it is counted
as zero termination requests. -/
def waitLoop : List LoopEvent → WaitResult × ℕ
  | [] => (WaitResult.childExited, 0)
  | LoopEvent.exited :: _ => (WaitResult.childExited, 0)
  | LoopEvent.interrupt :: _ => (WaitResult.terminated, 1)
  | LoopEvent.running :: rest => waitLoop rest

/-- Claim C1 counterexample: in scenario 2 the y sequence has length 16
and the x sequence length 5, so the claimed equation
length(y) = 2 * length(x) fails (16 is not 10). -/
theorem c1_counterexample : ¬ (y2.length = 2 * x2.length) := by decide

/-- Claim C1 (amended): in scenario 2 the y sequence has length double
its own pre-duplication length (16 = 2 * 8), x has length 5 with
x = [0, 1, 2, 3, 4], and y equals its own first half repeated twice. -/
theorem c1_test2_lengths_and_halves :
    y2.length = 2 * y2pre.length ∧ y2pre.length = 8 ∧
    x2.length = 5 ∧ x2 = [0, 1, 2, 3, 4] ∧
    y2 = y2.take (y2.length / 2) ++ y2.take (y2.length / 2) := by decide

/-- Claim C4: for scenario 1 the x sequence has length 100 with
x[i] = i/10 on its whole range, and y has the same length with
y[i] = sine(x[i]) for every i, where sine is the (abstracted) `math.sin`
model. -/
theorem c4_test1_series :
    ∀ (fsin : ℚ → ℚ), x1.length = 100 ∧ (y1 fsin).length = 100 ∧
      ∀ i : ℕ, i < 100 → x1[i]? = some ((i : ℚ) / 10) ∧
        (y1 fsin)[i]? = some (fsin ((i : ℚ) / 10)) := by
  intro fsin
  refine ⟨?_, ?_, ?_⟩
  · simp only [x1, List.length_map, List.length_range]
  · simp only [y1, x1, List.length_map, List.length_range]
  · intro i hi
    constructor
    · simp only [x1, List.getElem?_map, List.getElem?_range hi, Option.map_some']
    · simp only [y1, x1, List.getElem?_map, List.getElem?_range hi, Option.map_some']

/-- Claim C4 witness: the statement instantiated at the identity sine
model and index 3. -/
theorem c4_witness :
    x1.length = 100 ∧ x1[3]? = some (((3 : ℕ) : ℚ) / 10) :=
  ⟨(c4_test1_series id).1, ((c4_test1_series id).2.2 3 (by decide)).1⟩

/-- Claim C6: for scenario 3 both sequences have length 5, with
x[i] = i/5 and y[i] = sine(x[i]) for every i, where sine is the
(abstracted) `math.sin` model. -/
theorem c6_test3_series :
    ∀ (fsin : ℚ → ℚ), x3.length = 5 ∧ (y3 fsin).length = 5 ∧
      ∀ i : ℕ, i < 5 → x3[i]? = some ((i : ℚ) / 5) ∧
        (y3 fsin)[i]? = some (fsin ((i : ℚ) / 5)) := by
  intro fsin
  refine ⟨?_, ?_, ?_⟩
  · simp only [x3, List.length_map, List.length_range]
  · simp only [y3, x3, List.length_map, List.length_range]
  · intro i hi
    constructor
    · simp only [x3, List.getElem?_map, List.getElem?_range hi, Option.map_some']
    · simp only [y3, x3, List.getElem?_map, List.getElem?_range hi, Option.map_some']

/-- Claim C6 witness: the statement instantiated at the identity sine
model and index 2. -/
theorem c6_witness :
    x3.length = 5 ∧ x3[2]? = some (((2 : ℕ) : ℚ) / 5) :=
  ⟨(c6_test3_series id).1, ((c6_test3_series id).2.2 2 (by decide)).1⟩

/-- Claim C5: for scenario 4 and every aes input, the returned token list
is exactly the split on single spaces of the two concatenated literal
argument strings; in particular it does not depend on aes. -/
theorem c5_test4_fixed_tokens :
    ∀ (fsin : ℚ → ℚ) (frender : ℚ → String) (aes : List String),
      test4 fsin frender aes =
        ["-P", "-x", "\"1,2,3\"", "-y", "\"1,4,9\"", "-t", "lines", "-c", "red",
         "-P", "-x", "\"1,2,3\"", "-y", "\"2,3,4\"", "-t", "points", "-c", "blue"] := by
  intro fsin frender aes
  rfl

/-- The token group for the file-backed series of scenarios 5 and 6:
the split on single spaces of the literal file-group string. -/
def fileGroup : List String :=
  pySplit ("-P --file test.dat -x1 -y2 -t lines -c red")

/-- The token group for the inline series of scenarios 5 and 6: the split
on single spaces of the literal inline-group string. -/
def inlineGroup : List String :=
  pySplit ("-P -x \"1,2,3,4\" -y \"3,6,9,12\" -t points -c blue")

/-- Claim C8: for every aes input, scenario 5 returns the file-backed
group followed by the inline group, and scenario 6 returns exactly the
same two groups in the opposite order; both outputs are independent of
aes since the right-hand sides are fixed. -/
theorem c8_test5_test6_swapped :
    ∀ (fsin : ℚ → ℚ) (frender : ℚ → String) (aes : List String),
      test5 fsin frender aes = fileGroup ++ inlineGroup ∧
      test6 fsin frender aes = inlineGroup ++ fileGroup := by
  intro fsin frender aes
  exact ⟨rfl, rfl⟩

/-- Claim C2 counterexample: for scenario 2 with the default empty aes
string, the token list passed to the child is the four base tokens plus
one extra empty-string token, so it is not equal to the four base tokens
alone. -/
theorem c2_counterexample :
    pymain (fun q => q) (fun _ => "") 2 ("") =
      MainOutcome.launched
        ("./main" :: (["-x", to_strInt x2, "-y", to_strInt y2] ++ [""])) ∧
    pymain (fun q => q) (fun _ => "") 2 ("") ≠
      MainOutcome.launched ("./main" :: ["-x", to_strInt x2, "-y", to_strInt y2]) := by
  constructor
  · rfl
  · decide

/-- Claim C2 (amended): for scenarios 1, 2 and 3 the tokens appended
after the four base tokens are exactly the aes string stripped of
leading and trailing whitespace and then split on every single space
character with empty fields kept; in particular the empty aes string
contributes one empty-string token rather than none. -/
theorem c2_aes_tokens_appended :
    ∀ (fsin : ℚ → ℚ) (frender : ℚ → String) (s : String),
      pymain fsin frender 1 s =
        MainOutcome.launched
          ("./main" ::
            (["-x", to_str frender x1, "-y", to_str frender (y1 fsin)] ++ aesTokens s)) ∧
      pymain fsin frender 2 s =
        MainOutcome.launched
          ("./main" :: (["-x", to_strInt x2, "-y", to_strInt y2] ++ aesTokens s)) ∧
      pymain fsin frender 3 s =
        MainOutcome.launched
          ("./main" ::
            (["-x", to_str frender x3, "-y", to_str frender (y3 fsin)] ++ aesTokens s)) ∧
      aesTokens ("") = [""] := by
  intro fsin frender s
  exact ⟨rfl, rfl, rfl, rfl⟩

/-- Claim C3: an identifier outside the six-entry mapping makes the
dispatcher report the failure and exit with status 1 without launching a
child process, while an identifier in the mapping never takes the
unknown-identifier error branch. -/
theorem c3_unknown_scenario_exits :
    ∀ (fsin : ℚ → ℚ) (frender : ℚ → String) (t : ℤ) (s : String),
      (t ∉ ([1, 2, 3, 4, 5, 6] : List ℤ) →
        pymain fsin frender t s =
          MainOutcome.errorExit ("Test " ++ toString t ++ " not found") 1 ∧
        ∀ argv, pymain fsin frender t s ≠ MainOutcome.launched argv) ∧
      (t ∈ ([1, 2, 3, 4, 5, 6] : List ℤ) →
        ∀ msg code, pymain fsin frender t s ≠ MainOutcome.errorExit msg code) := by
  intro fsin frender t s
  constructor
  · intro hnot
    have h : t ≠ 1 ∧ t ≠ 2 ∧ t ≠ 3 ∧ t ≠ 4 ∧ t ≠ 5 ∧ t ≠ 6 := by
      simpa using hnot
    obtain ⟨h1, h2, h3, h4, h5, h6⟩ := h
    constructor
    · simp [pymain, test_cases, h1, h2, h3, h4, h5, h6]
    · intro argv
      simp [pymain, test_cases, h1, h2, h3, h4, h5, h6]
  · intro hmem msg code
    have h : t = 1 ∨ t = 2 ∨ t = 3 ∨ t = 4 ∨ t = 5 ∨ t = 6 := by
      simpa using hmem
    rcases h with h | h | h | h | h | h <;> subst h <;>
      exact fun hcontra => MainOutcome.noConfusion hcontra

/-- Claim C3 witness: the statement instantiated at the unknown
identifier 0 and the known identifier 1. -/
theorem c3_witness :
    pymain (fun q => q) (fun _ => "") 0 ("") =
      MainOutcome.errorExit ("Test " ++ toString (0 : ℤ) ++ " not found") 1 ∧
    pymain (fun q => q) (fun _ => "") 1 ("") ≠
      MainOutcome.errorExit ("Test 1 not found") 1 :=
  ⟨((c3_unknown_scenario_exits (fun q => q) (fun _ => "") 0 ("")).1 (by decide)).1,
   (c3_unknown_scenario_exits (fun q => q) (fun _ => "") 1 ("")).2 (by decide)
     ("Test 1 not found") 1⟩

/-- Claim C7: if an interrupt is delivered while the child is still
running (every earlier poll saw the child running), the wait loop issues
exactly one termination request and returns normally via the terminated
branch; and a run without any interrupt issues no termination request at
all. -/
theorem c7_interrupt_terminates_once :
    (∀ pre post, (∀ e ∈ pre, e = LoopEvent.running) →
      waitLoop (pre ++ LoopEvent.interrupt :: post) = (WaitResult.terminated, 1)) ∧
    ∀ evs, LoopEvent.interrupt ∉ evs → (waitLoop evs).2 = 0 := by
  constructor
  · intro pre post hpre
    induction pre with
    | nil => rfl
    | cons e rest ih =>
      have he : e = LoopEvent.running := hpre e (List.mem_cons_self e rest)
      subst he
      exact ih fun x hx => hpre x (List.mem_cons_of_mem _ hx)
  · intro evs hni
    induction evs with
    | nil => rfl
    | cons e rest ih =>
      cases e with
      | running => exact ih fun hx => hni (List.mem_cons_of_mem _ hx)
      | exited => rfl
      | interrupt => exact absurd (List.mem_cons_self _ _) hni

/-- Claim C7 witness: the statement instantiated at a run with one poll
before the interrupt, and at an interrupt-free run that ends with the
child exiting. -/
theorem c7_witness :
    waitLoop [LoopEvent.running, LoopEvent.interrupt] = (WaitResult.terminated, 1) ∧
    (waitLoop [LoopEvent.running, LoopEvent.exited]).2 = 0 :=
  ⟨c7_interrupt_terminates_once.1 [LoopEvent.running] [] (by decide),
   c7_interrupt_terminates_once.2 [LoopEvent.running, LoopEvent.exited] (by decide)⟩

/-- Claim C9: the scenario generators are deterministic: any two lookups
of the same identifier yield generators that return identical token
lists on the same sine model, rendering model and aes tokens. -/
theorem c9_generators_deterministic :
    ∀ (t : ℤ) (g₁ g₂ : Gen), test_cases t = some g₁ → test_cases t = some g₂ →
      ∀ (fsin : ℚ → ℚ) (frender : ℚ → String) (aes : List String),
        g₁ fsin frender aes = g₂ fsin frender aes := by
  intro t g₁ g₂ h₁ h₂ fsin frender aes
  rw [h₁] at h₂
  injection h₂ with h
  rw [h]

/-- Claim C9 witness: the statement instantiated at identifier 1 with
both lookups discharged by computation. -/
theorem c9_witness :
    test1 (fun q => q) (fun _ => "") [] = test1 (fun q => q) (fun _ => "") [] :=
  c9_generators_deterministic 1 test1 test1 rfl rfl (fun q => q) (fun _ => "") []

/-- Claim C10: for every aes token list, the generators of scenarios 1,
2 and 3 return a token list of length 4 plus the number of aes tokens,
whose element 0 is the flag for x, element 2 the flag for y, and
elements 1 and 3 the comma-space-joined renderings of the x and y
sequences. -/
theorem c10_base_token_shape :
    ∀ (fsin : ℚ → ℚ) (frender : ℚ → String) (aes : List String),
      ((test1 fsin frender aes).length = 4 + aes.length ∧
        (test1 fsin frender aes)[0]? = some ("-x") ∧
        (test1 fsin frender aes)[1]? = some (to_str frender x1) ∧
        (test1 fsin frender aes)[2]? = some ("-y") ∧
        (test1 fsin frender aes)[3]? = some (to_str frender (y1 fsin))) ∧
      ((test2 fsin frender aes).length = 4 + aes.length ∧
        (test2 fsin frender aes)[0]? = some ("-x") ∧
        (test2 fsin frender aes)[1]? = some (to_strInt x2) ∧
        (test2 fsin frender aes)[2]? = some ("-y") ∧
        (test2 fsin frender aes)[3]? = some (to_strInt y2)) ∧
      ((test3 fsin frender aes).length = 4 + aes.length ∧
        (test3 fsin frender aes)[0]? = some ("-x") ∧
        (test3 fsin frender aes)[1]? = some (to_str frender x3) ∧
        (test3 fsin frender aes)[2]? = some ("-y") ∧
        (test3 fsin frender aes)[3]? = some (to_str frender (y3 fsin))) := by
  intro fsin frender aes
  have e1 : test1 fsin frender aes =
      "-x" :: to_str frender x1 :: "-y" :: to_str frender (y1 fsin) :: aes := rfl
  have e2 : test2 fsin frender aes =
      "-x" :: to_strInt x2 :: "-y" :: to_strInt y2 :: aes := rfl
  have e3 : test3 fsin frender aes =
      "-x" :: to_str frender x3 :: "-y" :: to_str frender (y3 fsin) :: aes := rfl
  rw [e1, e2, e3]
  refine ⟨⟨?_, ?_, ?_, ?_, ?_⟩, ⟨?_, ?_, ?_, ?_, ?_⟩, ⟨?_, ?_, ?_, ?_, ?_⟩⟩ <;>
    simp [List.getElem?_cons_zero, List.getElem?_cons_succ, List.length_cons] <;>
    omega
